import Mathlib

/-
Verification of the PortScanner scan engine against its specification.
The definitions below are a shallow embedding of the Rust sources:
pure decision logic becomes Lean functions, stateful code becomes explicit
state passing (probe maps as association lists, channels as identifiers),
and nondeterministic inputs from the environment (random ports, channel
outcomes, received frames) become explicit parameters.
-/

namespace PortScannerProof

/-- Port statuses, from src/utility/scanner_enums.rs (enum PortStatus). -/
inductive PortStatus where
  | Open
  | Closed
  | Filtered
  | Unfiltered
  | OpenFiltered
  deriving DecidableEq, Repr

/-- Scan modes, from src/utility/scanner_enums.rs (enum Mode). -/
inductive Mode where
  | Udp
  | Tcp
  | Syn
  | Null
  | Fin
  | Xmas
  | Ack
  deriving DecidableEq, Repr

/-- TCP flag bit values used by pnet's TcpFlags module. -/
def TcpFlagFIN : Nat := 1

/-- SYN bit. -/
def TcpFlagSYN : Nat := 2

/-- RST bit. -/
def TcpFlagRST : Nat := 4

/-- PSH bit. -/
def TcpFlagPSH : Nat := 8

/-- ACK bit. -/
def TcpFlagACK : Nat := 16

/-- URG bit. -/
def TcpFlagURG : Nat := 32

/-!
ProbeMap: src/engine/scanner.rs models it as
HashMap<(u16, u16), mpsc::Sender<PortStatus>> under a mutex.
We embed it as an association list from keys (interface_port, target_port)
to channel identifiers (a Nat standing for the mpsc sender handle).
-/

/-- A ProbeMap key: (ephemeral interface source port, target port). -/
abbrev ProbeKey := Nat × Nat

/-- The ProbeMap: association list keyed by ProbeKey, values are channel ids. -/
abbrev ProbeMap := List (ProbeKey × Nat)

/-- HashMap lookup: first entry with the given key. -/
def hashLookup (m : ProbeMap) (k : ProbeKey) : Option Nat :=
  match m with
  | [] => none
  | (k2, v) :: rest => if k = k2 then some v else hashLookup rest k

/-- HashMap insert: replace the entry with the given key, or append. -/
def hashInsert (m : ProbeMap) (k : ProbeKey) (v : Nat) : ProbeMap :=
  match m with
  | [] => [(k, v)]
  | (k2, v2) :: rest =>
    if k = k2 then (k, v) :: rest else (k2, v2) :: hashInsert rest k v

/-- HashMap remove: delete the entry with the given key (keys are unique
in a HashMap, so deleting the first occurrence is faithful). -/
def hashRemove (m : ProbeMap) (k : ProbeKey) : ProbeMap :=
  match m with
  | [] => []
  | (k2, v2) :: rest =>
    if k = k2 then rest else (k2, v2) :: hashRemove rest k

/-- A link-layer frame as far as the scan logic observes it: the transport
header fields written by _create_tcp_packet / _create_udp_packet
(src/net/tcp_builder.rs, src/net/udp_builder.rs). -/
inductive Frame where
  | tcp (srcPort dstPort flags : Nat)
  | udp (srcPort dstPort : Nat)
  deriving DecidableEq, Repr

/-- Outcome of `time::timeout(duration, rx_probe.recv()).await` in the raw
scan functions: `received s` is Ok(Some(s)), `closed` is Ok(None) (all
senders dropped), `timeout` is Err(Elapsed). -/
inductive RecvOutcome where
  | received (status : PortStatus)
  | closed
  | timeout
  deriving DecidableEq, Repr

/-- The environment of one raw-mode probe: the randomly drawn ephemeral
source port, the identifier of the freshly created task channel, whether
the link-layer send succeeds, and what the delivery channel yields within
the configured timeout. Mutex acquisitions are modelled as always
succeeding: a std::sync::Mutex lock fails only when poisoned by a panic,
and no code in the scanner panics while holding a lock. -/
structure RawEnv where
  randPort : Nat
  chanId : Nat
  sendOk : Bool
  recv : RecvOutcome
  deriving DecidableEq, Repr

/-- The observable outcome of one raw-mode probe: its returned
Result<PortStatus>, the probe map it leaves behind, and the frames it
successfully transmitted. -/
structure RawResult where
  result : Except String PortStatus
  probeMap : ProbeMap
  frames : List Frame

/-- scan_syn, from src/engine/syn.rs: insert the rendezvous, build a
SYN-flagged TCP frame, send it (early-returning the send error with the
rendezvous still registered on failure), wait on the delivery channel with
the timeout falling back to Filtered, then remove the rendezvous. -/
def scan_syn (env : RawEnv) (probe_map : ProbeMap) (target_port : Nat) : RawResult :=
  let rand_interface_port := env.randPort
  let pm1 := hashInsert probe_map (rand_interface_port, target_port) env.chanId
  let frame := Frame.tcp rand_interface_port target_port TcpFlagSYN
  if env.sendOk then
    let status := match env.recv with
      | .received s => s
      | _ => PortStatus.Filtered
    { result := .ok status,
      probeMap := hashRemove pm1 (rand_interface_port, target_port),
      frames := [frame] }
  else
    { result := .error "Could not send probe to target with current socket.",
      probeMap := pm1,
      frames := [] }

/-- scan_udp, from src/engine/udp.rs: same lifecycle as scan_syn but with a
UDP frame and OpenFiltered as the default on silence. -/
def scan_udp (env : RawEnv) (probe_map : ProbeMap) (target_port : Nat) : RawResult :=
  let rand_interface_port := env.randPort
  let pm1 := hashInsert probe_map (rand_interface_port, target_port) env.chanId
  let frame := Frame.udp rand_interface_port target_port
  if env.sendOk then
    let status := match env.recv with
      | .received s => s
      | _ => PortStatus.OpenFiltered
    { result := .ok status,
      probeMap := hashRemove pm1 (rand_interface_port, target_port),
      frames := [frame] }
  else
    { result := .error "Could not send probe to target with current socket.",
      probeMap := pm1,
      frames := [] }

/-- Modelled from the spec: src/engine/null.rs is imported by
src/engine/scanner.rs but absent from src/. Spec section 4.6 gives the NULL
probe the scan_syn lifecycle with a zero flags byte and Open/Filtered as
the default on silence. -/
def scan_null (env : RawEnv) (probe_map : ProbeMap) (target_port : Nat) : RawResult :=
  let rand_interface_port := env.randPort
  let pm1 := hashInsert probe_map (rand_interface_port, target_port) env.chanId
  let frame := Frame.tcp rand_interface_port target_port 0
  if env.sendOk then
    let status := match env.recv with
      | .received s => s
      | _ => PortStatus.OpenFiltered
    { result := .ok status,
      probeMap := hashRemove pm1 (rand_interface_port, target_port),
      frames := [frame] }
  else
    { result := .error "Could not send probe to target with current socket.",
      probeMap := pm1,
      frames := [] }

/-- Modelled from the spec: src/engine/fin.rs is imported by
src/engine/scanner.rs but absent from src/. Spec section 4.6 gives the FIN
probe the scan_syn lifecycle with the FIN flags byte and Open/Filtered as
the default on silence. -/
def scan_fin (env : RawEnv) (probe_map : ProbeMap) (target_port : Nat) : RawResult :=
  let rand_interface_port := env.randPort
  let pm1 := hashInsert probe_map (rand_interface_port, target_port) env.chanId
  let frame := Frame.tcp rand_interface_port target_port TcpFlagFIN
  if env.sendOk then
    let status := match env.recv with
      | .received s => s
      | _ => PortStatus.OpenFiltered
    { result := .ok status,
      probeMap := hashRemove pm1 (rand_interface_port, target_port),
      frames := [frame] }
  else
    { result := .error "Could not send probe to target with current socket.",
      probeMap := pm1,
      frames := [] }

/-- Modelled from the spec: src/engine/xmas.rs is imported by
src/engine/scanner.rs but absent from src/. Spec section 4.6 gives the XMAS
probe the scan_syn lifecycle with flags FIN or PSH or URG and Open/Filtered
as the default on silence. -/
def scan_xmas (env : RawEnv) (probe_map : ProbeMap) (target_port : Nat) : RawResult :=
  let rand_interface_port := env.randPort
  let pm1 := hashInsert probe_map (rand_interface_port, target_port) env.chanId
  let frame := Frame.tcp rand_interface_port target_port
    (TcpFlagFIN ||| TcpFlagPSH ||| TcpFlagURG)
  if env.sendOk then
    let status := match env.recv with
      | .received s => s
      | _ => PortStatus.OpenFiltered
    { result := .ok status,
      probeMap := hashRemove pm1 (rand_interface_port, target_port),
      frames := [frame] }
  else
    { result := .error "Could not send probe to target with current socket.",
      probeMap := pm1,
      frames := [] }

/-- scan_ack, from src/engine/ack.rs: the function body is a TODO stub that
immediately returns Ok(PortStatus::Filtered). It registers nothing in the
probe map, builds no frame and transmits nothing. -/
def scan_ack (_env : RawEnv) (probe_map : ProbeMap) (_target_port : Nat) : RawResult :=
  { result := .ok PortStatus.Filtered,
    probeMap := probe_map,
    frames := [] }

/-- The io::ErrorKind values distinguished by scan_tcp
(src/engine/tcp.rs); `other` covers every remaining kind. -/
inductive IoErrorKind where
  | ConnectionRefused
  | TimedOut
  | NotConnected
  | HostUnreachable
  | NetworkUnreachable
  | other (code : Nat)
  deriving DecidableEq, Repr

/-- Outcome of `time::timeout(duration, TcpStream::connect(addr)).await`:
`connected` is Ok(Ok(_)), `connectError k` is Ok(Err(e)) with e.kind() = k,
`elapsed` is Err(Elapsed) (the deadline passed). -/
inductive ConnectOutcome where
  | connected
  | connectError (kind : IoErrorKind)
  | elapsed
  deriving DecidableEq, Repr

/-- scan_tcp, from src/engine/tcp.rs: map the connect outcome to a port
status; every path returns Ok. -/
def scan_tcp (outcome : ConnectOutcome) : Except String PortStatus :=
  match outcome with
  | .connected => .ok PortStatus.Open
  | .connectError e =>
    match e with
    | .ConnectionRefused => .ok PortStatus.Closed
    | .TimedOut => .ok PortStatus.Filtered
    | .NotConnected => .ok PortStatus.Filtered
    | .HostUnreachable => .ok PortStatus.Filtered
    | .NetworkUnreachable => .ok PortStatus.Filtered
    | .other _ => .ok PortStatus.Filtered
  | .elapsed => .ok PortStatus.Filtered

/-- The per-port environment a probe task draws on: the connect outcome
(Tcp mode) and the raw-probe environment (raw modes). -/
structure PortEnv where
  connect : ConnectOutcome
  raw : RawEnv

/-- The status computed by PortScanner::scan_port_task
(src/engine/scanner.rs): dispatch on the mode, mapping any per-probe error
to Filtered via unwrap_or_else. The probe map handed to the raw scan
functions does not influence their returned status, so each task is given
a fresh one here. The Mode::Udp arm is modelled from the spec: the match
in scanner.rs omits it although src/engine/udp.rs and the Udp mode exist;
spec section 4.6 dispatches Udp probes to the UDP prober. -/
def task_status (mode : Mode) (env : PortEnv) (target_port : Nat) : PortStatus :=
  let r : Except String PortStatus :=
    match mode with
    | .Tcp => scan_tcp env.connect
    | .Syn => (scan_syn env.raw [] target_port).result
    | .Null => (scan_null env.raw [] target_port).result
    | .Fin => (scan_fin env.raw [] target_port).result
    | .Xmas => (scan_xmas env.raw [] target_port).result
    | .Ack => (scan_ack env.raw [] target_port).result
    | .Udp => (scan_udp env.raw [] target_port).result
  match r with
  | .ok s => s
  | .error _ => PortStatus.Filtered

/-- Ordered-map insert for the ResultsMap (BTreeMap<u16, PortStatus> in
src/engine/scanner.rs): keep keys strictly ascending, overwrite on an
equal key. -/
def btreeInsert (m : List (Nat × PortStatus)) (k : Nat) (v : PortStatus) :
    List (Nat × PortStatus) :=
  match m with
  | [] => [(k, v)]
  | (k2, v2) :: rest =>
    if k < k2 then (k, v) :: (k2, v2) :: rest
    else if k = k2 then (k, v) :: rest
    else (k2, v2) :: btreeInsert rest k v

/-- The ports iterated by `for target_port in self.start_port..=self.end_port`
in PortScanner::start_scan: the inclusive range. -/
def scanPorts (start_port end_port : Nat) : List Nat :=
  List.range' start_port (end_port + 1 - start_port)

/-- The ResultsMap content after PortScanner::start_scan
(src/engine/scanner.rs) returns: every port in the inclusive range gets one
scan_port_task whose status is inserted into the BTreeMap. The semaphore
(concurrency permits) only throttles task admission and does not change
which entries are inserted; it is kept as a parameter to mirror the
configuration. Mutex acquisitions succeed as no task panics under a lock. -/
def start_scan (mode : Mode) (start_port end_port : Nat) (concurrency : Nat)
    (env : Nat → PortEnv) : List (Nat × PortStatus) :=
  let _ := concurrency
  (scanPorts start_port end_port).foldl
    (fun results p => btreeInsert results p (task_status mode (env p) p)) []

/-- The rendezvous step of PacketListener::handle_packet
(src/engine/listener.rs): given the triple decoded from a reply frame,
look the key up in the probe map and try_send the status on the found
channel; the map is never mutated. Returns the (unchanged) probe map and
the deliveries attempted: pairs (channel id, status). -/
def handle_packet (pm : ProbeMap) (reply : Nat × Nat × PortStatus) :
    ProbeMap × List (Nat × PortStatus) :=
  match hashLookup pm (reply.1, reply.2.1) with
  | some chan => (pm, [(chan, reply.2.2)])
  | none => (pm, [])

/-- The deliveries the listener performs over a sequence of decoded
replies arriving while the probe map holds the given entries. -/
def listener_deliveries (pm : ProbeMap) (replies : List (Nat × Nat × PortStatus)) :
    List (Nat × PortStatus) :=
  replies.foldl (fun acc r => acc ++ (handle_packet pm r).2) []

/-- _parse_tcp_status, from src/net/tcp_builder.rs: SYN and ACK both set
means Open, otherwise RST set means Closed, otherwise no classification.
The mode argument is present in the source signature and unused. -/
def _parse_tcp_status (flags : Nat) (_mode : Mode) : Option PortStatus :=
  if flags &&& TcpFlagSYN != 0 && flags &&& TcpFlagACK != 0 then
    some PortStatus.Open
  else if flags &&& TcpFlagRST != 0 then
    some PortStatus.Closed
  else
    none

/-!
ICMP destination-unreachable interpreter, src/net/icmp_builder.rs.
The pnet destination-unreachable code constants, by wire value:
DestinationNetworkUnreachable 0, DestinationHostUnreachable 1,
DestinationProtocolUnreachable 2, DestinationPortUnreachable 3,
NetworkAdministrativelyProhibited 9, HostAdministrativelyProhibited 10,
CommunicationAdministrativelyProhibited 13.
-/

/-- The embedded original transport segment recovered from the IPv4 packet
carried in an ICMP destination-unreachable payload. -/
inductive EmbeddedSeg where
  | tcp (srcPort dstPort : Nat)
  | udp (srcPort dstPort : Nat)
  | other
  deriving DecidableEq, Repr

/-- The fields of an ICMP message that _parse_icmp_packet inspects: the
ICMP type and code bytes, the total packet byte length, and the decoded
embedded original segment. -/
structure IcmpMsg where
  icmpType : Nat
  icmpCode : Nat
  packetLen : Nat
  embedded : EmbeddedSeg
  deriving DecidableEq, Repr

/-- The six destination-unreachable codes the interpreter maps to
Filtered: net/host/protocol unreachable and network/host/communication
administratively prohibited. -/
def filteredIcmpCodes : List Nat := [0, 1, 2, 9, 10, 13]

/-- _parse_icmp_packet, from src/net/icmp_builder.rs: reject Tcp mode,
non-destination-unreachable types (type 3) and packets shorter than the
8-byte ICMP header plus a 20-byte embedded IPv4 header; then classify by
the embedded segment protocol and the ICMP code, recovering the interface
port from the embedded source port and the target port from the embedded
destination port. -/
def _parse_icmp_packet (msg : IcmpMsg) (mode : Mode) :
    Option (Nat × Nat × PortStatus) :=
  if mode = Mode.Tcp ∨ msg.icmpType ≠ 3 ∨ msg.packetLen < 28 then
    none
  else
    match msg.embedded with
    | .tcp sp dp =>
      if msg.icmpCode ∈ filteredIcmpCodes then
        some (sp, dp, PortStatus.Filtered)
      else
        none
    | .udp sp dp =>
      if msg.icmpCode ∈ filteredIcmpCodes then
        some (sp, dp, PortStatus.Filtered)
      else if msg.icmpCode = 3 then
        some (sp, dp, PortStatus.Closed)
      else
        none
    | .other => none

/-!
Interface facade and ARP resolution, src/net/interface.rs and
src/net/arp_builder.rs. IPv4 addresses and MAC addresses are embedded as
Nat (u32 and u48 values).
-/

/-- The fields of DeviceInterface (src/net/interface.rs) the scan logic
reads: MAC, IPv4 address, netmask and default gateway IPv4. -/
structure DeviceIface where
  mac : Nat
  ip : Nat
  netmask : Nat
  default_gateway_ip : Nat
  deriving DecidableEq, Repr

/-- check_local_device, from src/net/interface.rs: the target is local iff
its network address under the interface netmask equals the interface's. -/
def check_local_device (di : DeviceIface) (target_ip : Nat) : Bool :=
  (di.ip &&& di.netmask) == (target_ip &&& di.netmask)

/-- The fields of a received frame that parse_arp_response
(src/net/arp_builder.rs) inspects: the Ethernet ethertype and the ARP
operation, sender protocol address, sender hardware address, target
protocol address and target hardware address. -/
structure ArpFrame where
  ethertype : Nat
  operation : Nat
  senderIp : Nat
  senderMac : Nat
  targetIp : Nat
  targetMac : Nat
  deriving DecidableEq, Repr

/-- parse_arp_response, from src/net/arp_builder.rs: accept only ARP
(ethertype 0x0806) reply (operation 2) frames whose sender protocol
address is dst_ip, target protocol address is src_ip and target hardware
address is src_mac; return the sender hardware address. -/
def parse_arp_response (f : ArpFrame) (src_ip src_mac dst_ip : Nat) : Option Nat :=
  if f.ethertype ≠ 2054 then
    none
  else if f.operation ≠ 2 ∨ f.senderIp ≠ dst_ip ∨ f.targetIp ≠ src_ip ∨
      f.targetMac ≠ src_mac then
    none
  else
    some f.senderMac

/-- The ARP request fields written by create_arp_request_packet
(src/net/arp_builder.rs) that identify its addressee. -/
structure ArpRequest where
  senderIp : Nat
  senderMac : Nat
  targetIp : Nat
  deriving DecidableEq, Repr

/-- The receive loop of resolve_device_mac_address over the frames that
arrive before the timeout elapses: return the first frame
parse_arp_response accepts, or the timeout error once the list (the
frames seen within the window) is exhausted. -/
def arp_listen (frames : List ArpFrame) (di : DeviceIface) (target_ip : Nat) :
    Except String Nat :=
  match frames with
  | [] => .error "Failed to receive ARP response from target device."
  | f :: rest =>
    match parse_arp_response f di.ip di.mac target_ip with
    | some mac => .ok mac
    | none => arp_listen rest di target_ip

/-- resolve_device_mac_address, from src/net/interface.rs: choose the ARP
target (the target itself when local, the default gateway otherwise),
build the request for that address, then scan received frames with
parse_arp_response called with the original target_ip as the expected
sender. Returns the emitted request together with the result. -/
def resolve_device_mac_address (di : DeviceIface) (target_ip : Nat)
    (frames : List ArpFrame) : ArpRequest × Except String Nat :=
  let arp_target_ip := if check_local_device di target_ip then target_ip
    else di.default_gateway_ip
  let request : ArpRequest := ⟨di.ip, di.mac, arp_target_ip⟩
  (request, arp_listen frames di target_ip)

/-!
Gateway resolution, src/default_gateway/src/linux.rs and its caller in
src/net/interface.rs.
-/

/-- The final validation of get_interface_default_gateway
(src/default_gateway/src/linux.rs): the resolver fails only when both the
IPv4 and the IPv6 gateway lists are empty. -/
def get_interface_default_gateway (ipv4_vec ipv6_vec : List Nat) :
    Except String (List Nat × List Nat) :=
  if ipv4_vec.isEmpty && ipv6_vec.isEmpty then
    .error "No default gateway found for given interface."
  else
    .ok (ipv4_vec, ipv6_vec)

/-- get_default_gateway_ip_address, from src/net/interface.rs: propagate a
resolver failure, then take the first IPv4 gateway, failing when the IPv4
list is empty. -/
def get_default_gateway_ip_address (gw : Except String (List Nat × List Nat)) :
    Except String Nat :=
  match gw with
  | .error _ => .error "Interface has no gateway information."
  | .ok (ipv4_vec, _) =>
    match ipv4_vec.head? with
    | some ip => .ok ip
    | none => .error "Interface has no IPv4 default gateway."

/-- The outcomes of the helper calls DeviceInterface::new chains: default
interface selection (abstracted to Unit), MAC lookup, IPv4/netmask lookup,
and the Gateway Resolver result fed to get_default_gateway_ip_address. -/
structure NewEnv where
  interfaceResult : Except String Unit
  macResult : Except String Nat
  ipInfoResult : Except String (Nat × Nat)
  gatewayResult : Except String (List Nat × List Nat)

/-- DeviceInterface::new, from src/net/interface.rs: chain the helper
results with early return on error; the default gateway field is the
result of get_default_gateway_ip_address. -/
def DeviceInterface_new (env : NewEnv) : Except String DeviceIface :=
  match env.interfaceResult with
  | .error e => .error e
  | .ok _ =>
    match env.macResult with
    | .error e => .error e
    | .ok mac =>
      match env.ipInfoResult with
      | .error e => .error e
      | .ok ipInfo =>
        match get_default_gateway_ip_address env.gatewayResult with
        | .error e => .error e
        | .ok default_gateway_ip =>
          .ok { mac := mac, ip := ipInfo.1, netmask := ipInfo.2,
                default_gateway_ip := default_gateway_ip }

/-!
Helper lemmas about the ProbeMap association-list operations.
-/

/-- Looking up a just-inserted key finds the inserted value. -/
theorem hashLookup_hashInsert_self (m : ProbeMap) (k : ProbeKey) (v : Nat) :
    hashLookup (hashInsert m k v) k = some v := by
  induction m with
  | nil => simp [hashInsert, hashLookup]
  | cons hd tl ih =>
    by_cases h : k = hd.1
    · simp [hashInsert, hashLookup, h]
    · simp [hashInsert, hashLookup, h, ih]

/-- Membership in the keys of an insert. -/
theorem mem_keys_hashInsert (m : ProbeMap) (k : ProbeKey) (v : Nat) (a : ProbeKey) :
    a ∈ (hashInsert m k v).map Prod.fst ↔ a ∈ m.map Prod.fst ∨ a = k := by
  induction m with
  | nil => simp [hashInsert]
  | cons hd tl ih =>
    by_cases h : k = hd.1
    · subst h
      simp [hashInsert]
      tauto
    · simp [hashInsert, h, ih]
      tauto

/-- Insert preserves key uniqueness. -/
theorem nodup_keys_hashInsert (m : ProbeMap) (k : ProbeKey) (v : Nat)
    (hnd : (m.map Prod.fst).Nodup) : ((hashInsert m k v).map Prod.fst).Nodup := by
  induction m with
  | nil => simp [hashInsert]
  | cons hd tl ih =>
    by_cases h : k = hd.1
    · subst h
      simpa [hashInsert] using hnd
    · simp only [List.map_cons, List.nodup_cons] at hnd
      simp only [hashInsert, if_neg h, List.map_cons, List.nodup_cons]
      refine ⟨?_, ih hnd.2⟩
      rw [mem_keys_hashInsert]
      rintro (hmem | heq)
      · exact hnd.1 hmem
      · exact h heq.symm

/-- A key absent from the keys yields no lookup result. -/
theorem hashLookup_eq_none_of_not_mem (m : ProbeMap) (k : ProbeKey)
    (h : k ∉ m.map Prod.fst) : hashLookup m k = none := by
  induction m with
  | nil => rfl
  | cons hd tl ih =>
    simp only [List.map_cons, List.mem_cons] at h
    push_neg at h
    simp [hashLookup, h.1, ih h.2]

/-- With unique keys, looking up a removed key finds nothing. -/
theorem hashLookup_hashRemove_self (m : ProbeMap) (k : ProbeKey)
    (hnd : (m.map Prod.fst).Nodup) : hashLookup (hashRemove m k) k = none := by
  induction m with
  | nil => rfl
  | cons hd tl ih =>
    simp only [List.map_cons, List.nodup_cons] at hnd
    by_cases h : k = hd.1
    · subst h
      simp only [hashRemove, if_pos rfl]
      exact hashLookup_eq_none_of_not_mem tl hd.1 hnd.1
    · simp [hashRemove, hashLookup, h, ih hnd.2]

/-!
Settlement of the claims.
-/

/-- Claim C2: for every raw-mode probe that reaches the delivery wait and
whose channel yields no status before the timeout elapses (or whose
channel errors), the returned status is the mode-specific
default-on-silence: Filtered for Syn and Ack probes, Open/Filtered for
Null, Fin, Xmas and Udp probes. -/
theorem C2_default_on_silence (env : RawEnv) (pm : ProbeMap) (port : Nat)
    (hsend : env.sendOk = true)
    (hsil : env.recv = RecvOutcome.timeout ∨ env.recv = RecvOutcome.closed) :
    (scan_syn env pm port).result = .ok PortStatus.Filtered ∧
    (scan_ack env pm port).result = .ok PortStatus.Filtered ∧
    (scan_null env pm port).result = .ok PortStatus.OpenFiltered ∧
    (scan_fin env pm port).result = .ok PortStatus.OpenFiltered ∧
    (scan_xmas env pm port).result = .ok PortStatus.OpenFiltered ∧
    (scan_udp env pm port).result = .ok PortStatus.OpenFiltered := by
  rcases hsil with h | h <;>
    simp [scan_syn, scan_ack, scan_null, scan_fin, scan_xmas, scan_udp, hsend, h]

/-- Witness for C2 at a concrete silent probe. -/
theorem C2_default_on_silence_witness :
    (scan_syn ⟨60000, 0, true, RecvOutcome.timeout⟩ [] 80).result
        = .ok PortStatus.Filtered ∧
    (scan_ack ⟨60000, 0, true, RecvOutcome.timeout⟩ [] 80).result
        = .ok PortStatus.Filtered ∧
    (scan_null ⟨60000, 0, true, RecvOutcome.timeout⟩ [] 80).result
        = .ok PortStatus.OpenFiltered ∧
    (scan_fin ⟨60000, 0, true, RecvOutcome.timeout⟩ [] 80).result
        = .ok PortStatus.OpenFiltered ∧
    (scan_xmas ⟨60000, 0, true, RecvOutcome.timeout⟩ [] 80).result
        = .ok PortStatus.OpenFiltered ∧
    (scan_udp ⟨60000, 0, true, RecvOutcome.timeout⟩ [] 80).result
        = .ok PortStatus.OpenFiltered :=
  C2_default_on_silence ⟨60000, 0, true, RecvOutcome.timeout⟩ [] 80 rfl (Or.inl rfl)

/-- Claim C3: the source's Ack probe (src/engine/ack.rs) is a TODO stub:
for every environment and probe map it returns Ok(Filtered) while
registering no ProbeMap rendezvous, building no frame and transmitting
nothing, contrary to the claimed register/build-ACK-frame/transmit/wait
lifecycle. -/
theorem C3_ack_probe_is_stub (env : RawEnv) (pm : ProbeMap) (port : Nat) :
    (scan_ack env pm port).result = .ok PortStatus.Filtered ∧
    (scan_ack env pm port).probeMap = pm ∧
    (scan_ack env pm port).frames = [] :=
  ⟨rfl, rfl, rfl⟩

/-- Claim C4 counterexample: a Syn probe whose link-layer send fails
returns early with its ProbeMap entry still registered, so the entry
survives the finalized probe. -/
theorem C4_entry_survives_send_failure :
    hashLookup (scan_syn ⟨60000, 7, false, RecvOutcome.timeout⟩ [] 80).probeMap
        (60000, 80) = some 7 ∧
    (scan_syn ⟨60000, 7, false, RecvOutcome.timeout⟩ [] 80).result
        = .error "Could not send probe to target with current socket." :=
  ⟨rfl, rfl⟩

/-- Claim C4 (amended): for every raw-mode probe that reaches the delivery
wait (send succeeded), the ProbeMap entry inserted at registration is
removed by the time the probe finalizes, both after a delivered status and
after timeout; but when the send fails the probe returns early and the
entry survives in the map. -/
theorem C4_entry_removed_on_wait_paths (env : RawEnv) (pm : ProbeMap) (port : Nat)
    (hnd : (pm.map Prod.fst).Nodup) :
    (env.sendOk = true →
      hashLookup (scan_syn env pm port).probeMap (env.randPort, port) = none ∧
      hashLookup (scan_udp env pm port).probeMap (env.randPort, port) = none ∧
      hashLookup (scan_null env pm port).probeMap (env.randPort, port) = none ∧
      hashLookup (scan_fin env pm port).probeMap (env.randPort, port) = none ∧
      hashLookup (scan_xmas env pm port).probeMap (env.randPort, port) = none) ∧
    (env.sendOk = false →
      hashLookup (scan_syn env pm port).probeMap (env.randPort, port)
          = some env.chanId ∧
      hashLookup (scan_udp env pm port).probeMap (env.randPort, port)
          = some env.chanId ∧
      hashLookup (scan_null env pm port).probeMap (env.randPort, port)
          = some env.chanId ∧
      hashLookup (scan_fin env pm port).probeMap (env.randPort, port)
          = some env.chanId ∧
      hashLookup (scan_xmas env pm port).probeMap (env.randPort, port)
          = some env.chanId) := by
  have hrem := hashLookup_hashRemove_self
    (hashInsert pm (env.randPort, port) env.chanId) (env.randPort, port)
    (nodup_keys_hashInsert pm (env.randPort, port) env.chanId hnd)
  have hins := hashLookup_hashInsert_self pm (env.randPort, port) env.chanId
  constructor
  · intro hsend
    refine ⟨?_, ?_, ?_, ?_, ?_⟩ <;>
      simp [scan_syn, scan_udp, scan_null, scan_fin, scan_xmas, hsend, hrem]
  · intro hsend
    refine ⟨?_, ?_, ?_, ?_, ?_⟩ <;>
      simp [scan_syn, scan_udp, scan_null, scan_fin, scan_xmas, hsend, hins]

/-- Witness for the amended C4 at a concrete successful probe. -/
theorem C4_entry_removed_on_wait_paths_witness :
    (([] : ProbeMap).map Prod.fst).Nodup ∧
    hashLookup (scan_syn ⟨60000, 7, true, RecvOutcome.timeout⟩ [] 80).probeMap
        (60000, 80) = none :=
  ⟨List.nodup_nil,
   ((C4_entry_removed_on_wait_paths ⟨60000, 7, true, RecvOutcome.timeout⟩ [] 80
      List.nodup_nil).1 rfl).1⟩

/-- Claim C5 counterexample: two decoded replies for the same still
registered ProbeKey are both delivered by the listener, so it can deliver
twice over a key's lifetime. -/
theorem C5_listener_delivers_twice :
    listener_deliveries [((60000, 80), 5)]
        [(60000, 80, PortStatus.Open), (60000, 80, PortStatus.Open)]
      = [(5, PortStatus.Open), (5, PortStatus.Open)] := rfl

/-- Claim C5 (amended): per handled packet the listener attempts at most
one delivery, it never mutates the ProbeMap, and a reply whose key is no
longer registered (the probe removed it after waking or timing out)
produces no delivery; but while an entry stays registered a second reply
for the same key is delivered again. -/
theorem C5_listener_per_packet (pm : ProbeMap) (reply : Nat × Nat × PortStatus) :
    (handle_packet pm reply).1 = pm ∧
    (handle_packet pm reply).2.length ≤ 1 ∧
    (hashLookup pm (reply.1, reply.2.1) = none → (handle_packet pm reply).2 = []) := by
  rcases h : hashLookup pm (reply.1, reply.2.1) with _ | chan <;>
    simp [handle_packet, h]

/-- Witness for the amended C5 at an empty probe map. -/
theorem C5_listener_per_packet_witness :
    (handle_packet [] (1, 2, PortStatus.Open)).1 = ([] : ProbeMap) ∧
    (handle_packet [] (1, 2, PortStatus.Open)).2 = [] :=
  ⟨(C5_listener_per_packet [] (1, 2, PortStatus.Open)).1,
   (C5_listener_per_packet [] (1, 2, PortStatus.Open)).2.2 rfl⟩

/-- Claim C9: the connect-mode probe maps its outcome to a status exactly
as the table states and never returns an error value. -/
theorem C9_connect_outcome_table :
    scan_tcp ConnectOutcome.connected = .ok PortStatus.Open ∧
    scan_tcp (ConnectOutcome.connectError IoErrorKind.ConnectionRefused)
        = .ok PortStatus.Closed ∧
    scan_tcp (ConnectOutcome.connectError IoErrorKind.TimedOut)
        = .ok PortStatus.Filtered ∧
    scan_tcp (ConnectOutcome.connectError IoErrorKind.NotConnected)
        = .ok PortStatus.Filtered ∧
    scan_tcp (ConnectOutcome.connectError IoErrorKind.HostUnreachable)
        = .ok PortStatus.Filtered ∧
    scan_tcp (ConnectOutcome.connectError IoErrorKind.NetworkUnreachable)
        = .ok PortStatus.Filtered ∧
    (∀ code, scan_tcp (ConnectOutcome.connectError (IoErrorKind.other code))
        = .ok PortStatus.Filtered) ∧
    scan_tcp ConnectOutcome.elapsed = .ok PortStatus.Filtered ∧
    (∀ outcome, ∃ s, scan_tcp outcome = .ok s) := by
  refine ⟨rfl, rfl, rfl, rfl, rfl, rfl, fun code => rfl, rfl, fun outcome => ?_⟩
  cases outcome with
  | connected => exact ⟨PortStatus.Open, rfl⟩
  | connectError e => cases e <;> exact ⟨_, rfl⟩
  | elapsed => exact ⟨PortStatus.Filtered, rfl⟩

/-- Claim C6: for the non-local target 8.8.8.8 behind the interface
192.168.1.10/24 with gateway 192.168.1.1, the code addresses the ARP
request to the gateway, yet a gateway reply carrying exactly the triple the
claim expects (sender IP = the chosen ARP target) is rejected, because
parse_arp_response is invoked with the original target_ip as the expected
sender; the call therefore times out instead of returning the sender MAC. -/
theorem C6_gateway_reply_rejected :
    check_local_device ⟨170, 3232235786, 4294967040, 3232235777⟩ 134744072 = false ∧
    (resolve_device_mac_address ⟨170, 3232235786, 4294967040, 3232235777⟩ 134744072
        [⟨2054, 2, 3232235777, 187, 3232235786, 170⟩]).1.targetIp = 3232235777 ∧
    parse_arp_response ⟨2054, 2, 3232235777, 187, 3232235786, 170⟩
        3232235786 170 3232235777 = some 187 ∧
    (resolve_device_mac_address ⟨170, 3232235786, 4294967040, 3232235777⟩ 134744072
        [⟨2054, 2, 3232235777, 187, 3232235786, 170⟩]).2
      = .error "Failed to receive ARP response from target device." := by
  refine ⟨by decide, by decide, by decide, ?_⟩
  rfl

/-- Claim C7: the ICMP destination-unreachable interpreter, in a non-Tcp
mode on a type-3 message with a long-enough payload, classifies an
embedded TCP segment to Filtered exactly on the six unreachable/prohibited
codes and ignores the rest, classifies an embedded UDP segment to Filtered
on those six codes and to Closed on port-unreachable (code 3) ignoring the
rest, recovering the interface port from the embedded source port and the
target port from the embedded destination port. -/
theorem C7_icmp_unreachable_table (msg : IcmpMsg) (mode : Mode)
    (hmode : mode ≠ Mode.Tcp) (htype : msg.icmpType = 3)
    (hlen : 28 ≤ msg.packetLen) :
    (∀ sp dp, msg.embedded = EmbeddedSeg.tcp sp dp →
      (msg.icmpCode ∈ filteredIcmpCodes →
        _parse_icmp_packet msg mode = some (sp, dp, PortStatus.Filtered)) ∧
      (msg.icmpCode ∉ filteredIcmpCodes →
        _parse_icmp_packet msg mode = none)) ∧
    (∀ sp dp, msg.embedded = EmbeddedSeg.udp sp dp →
      (msg.icmpCode ∈ filteredIcmpCodes →
        _parse_icmp_packet msg mode = some (sp, dp, PortStatus.Filtered)) ∧
      (msg.icmpCode = 3 →
        _parse_icmp_packet msg mode = some (sp, dp, PortStatus.Closed)) ∧
      (msg.icmpCode ∉ filteredIcmpCodes → msg.icmpCode ≠ 3 →
        _parse_icmp_packet msg mode = none)) := by
  have hguard : ¬(mode = Mode.Tcp ∨ msg.icmpType ≠ 3 ∨ msg.packetLen < 28) := by
    push_neg
    exact ⟨hmode, htype, hlen⟩
  constructor
  · intro sp dp hemb
    constructor
    · intro hcode
      simp [_parse_icmp_packet, hguard, hemb, hcode]
    · intro hcode
      simp [_parse_icmp_packet, hguard, hemb, hcode]
  · intro sp dp hemb
    refine ⟨?_, ?_, ?_⟩
    · intro hcode
      simp [_parse_icmp_packet, hguard, hemb, hcode]
    · intro hcode
      simp [_parse_icmp_packet, hguard, hemb, hcode, filteredIcmpCodes]
    · intro hcode hne
      simp [_parse_icmp_packet, hguard, hemb, hcode, hne]

/-- Witness for C7 at a concrete port-unreachable reply to a UDP probe. -/
theorem C7_icmp_unreachable_table_witness :
    (Mode.Udp ≠ Mode.Tcp ∧ (⟨3, 3, 56, EmbeddedSeg.udp 55000 53⟩ : IcmpMsg).icmpType = 3) ∧
    _parse_icmp_packet ⟨3, 3, 56, EmbeddedSeg.udp 55000 53⟩ Mode.Udp
      = some (55000, 53, PortStatus.Closed) :=
  ⟨⟨by decide, rfl⟩,
   (((C7_icmp_unreachable_table ⟨3, 3, 56, EmbeddedSeg.udp 55000 53⟩ Mode.Udp
      (by decide) rfl (by decide)).2 55000 53 rfl).2.1 rfl)⟩

/-- Claim C8: for every TCP flags byte, the reply classifier returns Open
when both the SYN bit (bit 1) and the ACK bit (bit 4) are set, otherwise
Closed when the RST bit (bit 2) is set, and otherwise no classification. -/
theorem C8_tcp_reply_classifier (mode : Mode) (flags : Nat) (hb : flags < 256) :
    (flags.testBit 1 = true → flags.testBit 4 = true →
      _parse_tcp_status flags mode = some PortStatus.Open) ∧
    (¬(flags.testBit 1 = true ∧ flags.testBit 4 = true) → flags.testBit 2 = true →
      _parse_tcp_status flags mode = some PortStatus.Closed) ∧
    (¬(flags.testBit 1 = true ∧ flags.testBit 4 = true) → flags.testBit 2 = false →
      _parse_tcp_status flags mode = none) := by
  revert flags
  cases mode <;> (set_option maxRecDepth 4096 in decide)

/-- Witness for C8 at flags = SYN or ACK (18). -/
theorem C8_tcp_reply_classifier_witness :
    (18 : Nat) < 256 ∧ _parse_tcp_status 18 Mode.Syn = some PortStatus.Open :=
  ⟨by decide,
   (C8_tcp_reply_classifier Mode.Syn 18 (by decide)).1 (by decide) (by decide)⟩

/-- Claim C10: DeviceInterface::new fails whenever the Gateway Resolver's
result carries no IPv4 gateway, even though the resolver itself succeeds
whenever its IPv6 list alone is non-empty; when the IPv4 list is non-empty
and the other steps succeed, construction uses its first element as the
default gateway. -/
theorem C10_new_requires_ipv4_gateway (env : NewEnv) (v6 : List Nat) :
    (env.gatewayResult = .ok ([], v6) →
      ∃ msg, DeviceInterface_new env = .error msg) ∧
    (v6 ≠ [] → get_interface_default_gateway [] v6 = .ok ([], v6)) ∧
    (∀ g rest mac ip mask,
      env.interfaceResult = .ok () → env.macResult = .ok mac →
      env.ipInfoResult = .ok (ip, mask) → env.gatewayResult = .ok (g :: rest, v6) →
      DeviceInterface_new env = .ok ⟨mac, ip, mask, g⟩) := by
  refine ⟨?_, ?_, ?_⟩
  · intro hgw
    rcases h1 : env.interfaceResult with e1 | u
    · exact ⟨e1, by simp [DeviceInterface_new, h1]⟩
    · rcases h2 : env.macResult with e2 | mac
      · exact ⟨e2, by simp [DeviceInterface_new, h1, h2]⟩
      · rcases h3 : env.ipInfoResult with e3 | ipinfo
        · exact ⟨e3, by simp [DeviceInterface_new, h1, h2, h3]⟩
        · exact ⟨"Interface has no IPv4 default gateway.",
            by simp [DeviceInterface_new, h1, h2, h3, hgw,
              get_default_gateway_ip_address]⟩
  · intro hne
    cases v6 with
    | nil => exact absurd rfl hne
    | cons a l => rfl
  · intro g rest mac ip mask h1 h2 h3 h4
    simp [DeviceInterface_new, h1, h2, h3, h4, get_default_gateway_ip_address]

/-- Witness for C10: the resolver succeeds on an IPv6-only result, yet
construction fails; with an IPv4 gateway present construction succeeds and
takes the first element. -/
theorem C10_new_requires_ipv4_gateway_witness :
    (get_interface_default_gateway [] [99] = .ok ([], [99]) ∧
      ∃ msg, DeviceInterface_new ⟨.ok (), .ok 170, .ok (1, 2), .ok ([], [99])⟩
        = .error msg) ∧
    DeviceInterface_new ⟨.ok (), .ok 170, .ok (1, 2), .ok ([7, 8], [99])⟩
      = .ok ⟨170, 1, 2, 7⟩ :=
  ⟨⟨(C10_new_requires_ipv4_gateway ⟨.ok (), .ok 170, .ok (1, 2), .ok ([], [99])⟩
      [99]).2.1 (by decide),
    (C10_new_requires_ipv4_gateway ⟨.ok (), .ok 170, .ok (1, 2), .ok ([], [99])⟩
      [99]).1 rfl⟩,
   (C10_new_requires_ipv4_gateway ⟨.ok (), .ok 170, .ok (1, 2), .ok ([7, 8], [99])⟩
      [99]).2.2 7 [8] 170 1 2 rfl rfl rfl rfl⟩

/-!
Lemmas for claim C1: the ResultsMap after a scan is exactly the sorted
association of the scanned range.
-/

/-- Inserting a key above every key of an ordered map appends the entry. -/
theorem btreeInsert_append (m : List (Nat × PortStatus)) (k : Nat) (v : PortStatus)
    (h : ∀ kv ∈ m, kv.1 < k) : btreeInsert m k v = m ++ [(k, v)] := by
  induction m with
  | nil => rfl
  | cons hd tl ih =>
    obtain ⟨k2, v2⟩ := hd
    have hhd : k2 < k := h (k2, v2) (List.mem_cons_self _ _)
    have h1 : ¬k < k2 := by omega
    have h2 : ¬k = k2 := by omega
    simp only [btreeInsert, if_neg h1, if_neg h2, List.cons_append]
    rw [ih (fun kv hkv => h kv (List.mem_cons_of_mem _ hkv))]

/-- Folding ordered inserts of an ascending range over a map whose keys
lie below the range appends the mapped range. -/
theorem foldl_btreeInsert_range' (f : Nat → PortStatus) :
    ∀ (n s : Nat) (m : List (Nat × PortStatus)), (∀ kv ∈ m, kv.1 < s) →
      (List.range' s n).foldl (fun r p => btreeInsert r p (f p)) m
        = m ++ (List.range' s n).map (fun p => (p, f p)) := by
  intro n
  induction n with
  | zero =>
    intro s m h
    simp
  | succ nn ih =>
    intro s m h
    rw [List.range'_succ]
    simp only [List.foldl_cons, List.map_cons]
    rw [btreeInsert_append m s (f s) h]
    have hlt : ∀ kv ∈ m ++ [(s, f s)], kv.1 < s + 1 := by
      intro kv hkv
      rcases List.mem_append.mp hkv with hm | he
      · exact Nat.lt_succ_of_lt (h kv hm)
      · simp only [List.mem_singleton] at he
        rw [he]
        exact Nat.lt_succ_self s
    rw [ih (s + 1) (m ++ [(s, f s)]) hlt]
    simp

/-- start_scan produces exactly the mapped scanned range. -/
theorem start_scan_eq_map (mode : Mode) (s e c : Nat) (env : Nat → PortEnv) :
    start_scan mode s e c env
      = (scanPorts s e).map (fun p => (p, task_status mode (env p) p)) := by
  unfold start_scan scanPorts
  exact foldl_btreeInsert_range' (fun p => task_status mode (env p) p)
    (e + 1 - s) s [] (by simp)

/-- Number of entries for a given port in a results map. -/
def countKey (m : List (Nat × PortStatus)) (p : Nat) : Nat :=
  m.countP (fun kv => kv.1 == p)

/-- Counting one key in an ascending range. -/
theorem countP_key_range' (p : Nat) :
    ∀ (n s : Nat), (List.range' s n).countP (fun q => q == p)
      = if s ≤ p ∧ p < s + n then 1 else 0 := by
  intro n
  induction n with
  | zero =>
    intro s
    rw [if_neg (by omega)]
    simp
  | succ nn ih =>
    intro s
    rw [List.range'_succ, List.countP_cons, ih (s + 1)]
    simp only [beq_iff_eq]
    split_ifs <;> omega

/-- Claim C1: for every scan configuration with any mode, any port range
with 1 <= start_port <= end_port and any concurrency >= 1, the ResultsMap
produced by start_scan holds exactly one entry for every port in the
inclusive range and none for any other port. -/
theorem C1_one_result_per_port (mode : Mode) (start_port end_port concurrency : Nat)
    (env : Nat → PortEnv) (h1 : 1 ≤ start_port) (h2 : start_port ≤ end_port)
    (h3 : 1 ≤ concurrency) (p : Nat) :
    countKey (start_scan mode start_port end_port concurrency env) p
      = if start_port ≤ p ∧ p ≤ end_port then 1 else 0 := by
  rw [start_scan_eq_map]
  unfold countKey
  rw [List.countP_map]
  have hfun : ((fun kv : Nat × PortStatus => kv.1 == p) ∘
      (fun q => (q, task_status mode (env q) q))) = fun q => q == p := rfl
  rw [hfun]
  unfold scanPorts
  rw [countP_key_range' p (end_port + 1 - start_port) start_port]
  have heq : (start_port ≤ p ∧ p < start_port + (end_port + 1 - start_port)) ↔
      (start_port ≤ p ∧ p ≤ end_port) := by omega
  simp only [heq]

/-- Witness for C1 on the range 1..3 with concurrency 2. -/
theorem C1_one_result_per_port_witness :
    countKey (start_scan Mode.Syn 1 3 2
      (fun _ => ⟨ConnectOutcome.connected, ⟨60000, 0, true, RecvOutcome.timeout⟩⟩))
      2 = 1 := by
  have h := C1_one_result_per_port Mode.Syn 1 3 2
    (fun _ => ⟨ConnectOutcome.connected, ⟨60000, 0, true, RecvOutcome.timeout⟩⟩)
    (by decide) (by decide) (by decide) 2
  simpa using h

end PortScannerProof
